import Mathlib

/-
  A shallow embedding of the HabitFlow client (habit tracking single-page
  application over a hosted relational backend).  The definitions below are
  translated from the TypeScript components (HabitsManager, MoodJournal,
  Dashboard, Analytics, Challenges, Templates, GoalBreakdown and
  CreateHabitModal) and from the SQL migration that declares the tables.

  Conventions of the embedding:
  - timestamps are client-local seconds since the epoch (Nat);
  - the backend database is a record of table contents (lists of rows) plus
    a fresh-id counter standing for gen_random_uuid;
  - every event handler is a pure function from the database, the current
    view state and its arguments to an Outcome recording the new database,
    the new view state, how many backend requests were issued, how many
    times the relevant read query was re-issued, and which toasts fired;
  - a Bool argument stands for whether a given backend request succeeds
    (the failure branch of the corresponding try/catch).
-/

namespace HabitFlow

/-- Timestamps: client-local seconds since the epoch. -/
abbrev Timestamp := Nat

def secsPerDay : Nat := 86400

/-- The local calendar day of a timestamp: the equivalence class tested by
comparing Date.toDateString values. -/
def localDay (t : Nat) : Nat := t / secsPerDay

/-- The timestamp written as format(date, yyyy-MM-dd) + T00:00:00:
midnight starting day d. -/
def dayStart (d : Nat) : Nat := d * secsPerDay

/-- The filter pair .gte(created_at, todayT00:00:00).lt(created_at,
todayT23:59:59) used by checkTodayMood, by the existence check of
submitMoodEntry and by the todayCompletions query of the dashboard:
the half-open window from local midnight to 23:59:59 of the same day. -/
def inTodayQueryWindow (now t : Timestamp) : Bool :=
  decide (dayStart (localDay now) ≤ t) &&
    decide (t < dayStart (localDay now) + (secsPerDay - 1))

/-- isCompletedToday in HabitsManager compares
new Date(completion.completed_at).toDateString() with the toDateString of
the current instant: same local calendar day. -/
def sameLocalDay (now t : Timestamp) : Bool := localDay t == localDay now

/-- frequency text CHECK (frequency IN (daily, weekly)). -/
inductive Frequency where
  | daily
  | weekly
deriving DecidableEq, Repr

/-- difficulty text CHECK (difficulty IN (easy, medium, hard)). -/
inductive Difficulty where
  | easy
  | medium
  | hard
deriving DecidableEq, Repr

/-- A row of the habits table. -/
structure HabitRow where
  id : Nat
  userId : Nat
  title : String
  description : Option String
  category : String
  frequency : Frequency
  targetCount : Nat
  difficulty : Difficulty
  isActive : Bool
  icon : String
  color : String
  createdAt : Timestamp
deriving DecidableEq, Repr

/-- A row of the habit_completions table. -/
structure CompletionRow where
  id : Nat
  habitId : Nat
  userId : Nat
  completedAt : Timestamp
  moodRating : Option Nat
deriving DecidableEq, Repr

/-- A row of the mood_entries table. -/
structure MoodRow where
  id : Nat
  userId : Nat
  moodRating : Nat
  reflection : Option String
  createdAt : Timestamp
deriving DecidableEq, Repr

/-- A row of the challenge_participants table.  The migration declares
UNIQUE(challenge_id, user_id) on this table. -/
structure ParticipantRow where
  id : Nat
  challengeId : Nat
  userId : Nat
  joinedAt : Timestamp
deriving DecidableEq, Repr

/-- The backend database state: table contents plus a fresh-id counter
standing for gen_random_uuid. -/
structure DB where
  habits : List HabitRow
  completions : List CompletionRow
  moods : List MoodRow
  participants : List ParticipantRow
  nextId : Nat
deriving DecidableEq, Repr

def emptyDB : DB := ⟨[], [], [], [], 0⟩

/-- Ordering relation for order(created_at, descending) on habits. -/
def habitLaterEq (a b : HabitRow) : Prop := b.createdAt ≤ a.createdAt

instance : DecidableRel habitLaterEq :=
  fun a b => Nat.decLe b.createdAt a.createdAt

instance : IsTotal HabitRow habitLaterEq :=
  ⟨fun a b => Nat.le_total b.createdAt a.createdAt⟩

instance : IsTrans HabitRow habitLaterEq :=
  ⟨fun _ _ _ hab hbc => Nat.le_trans hbc hab⟩

/-- Ordering relation for order(created_at, descending) on mood entries. -/
def moodLaterEq (a b : MoodRow) : Prop := b.createdAt ≤ a.createdAt

instance : DecidableRel moodLaterEq :=
  fun a b => Nat.decLe b.createdAt a.createdAt

instance : IsTotal MoodRow moodLaterEq :=
  ⟨fun a b => Nat.le_total b.createdAt a.createdAt⟩

instance : IsTrans MoodRow moodLaterEq :=
  ⟨fun _ _ _ hab hbc => Nat.le_trans hbc hab⟩

/-- The read query of fetchHabits: habits of the signed-in user with
is_active true, ordered by created_at descending, each embedding its
habit_completions rows. -/
def fetchHabitsQuery (db : DB) (u : Nat) : List (HabitRow × List CompletionRow) :=
  (List.insertionSort habitLaterEq
      (db.habits.filter (fun h => h.userId == u && h.isActive))).map
    (fun h => (h, db.completions.filter (fun c => c.habitId == h.id)))

/-- The read query of fetchMoodEntries: mood entries of the user, ordered
by created_at descending, limit 30. -/
def fetchMoodEntriesQuery (db : DB) (u : Nat) : List MoodRow :=
  (List.insertionSort moodLaterEq
      (db.moods.filter (fun m => m.userId == u))).take 30

/-- The read query of fetchMyParticipations: the challenge_id column of the
participation rows of the user. -/
def fetchMyParticipationsQuery (db : DB) (u : Nat) : List Nat :=
  (db.participants.filter (fun p => p.userId == u)).map (·.challengeId)

/-- checkTodayMood: select mood entries of the user with created_at in
[today T00:00:00, today T23:59:59); the component reads data[0]. -/
def checkTodayMood (db : DB) (u : Nat) (now : Timestamp) : Option MoodRow :=
  (db.moods.filter
      (fun m => m.userId == u && inTodayQueryWindow now m.createdAt)).head?

/-- isCompletedToday of HabitsManager over the embedded completion rows of
one habit: some completion falls on the current local calendar day. -/
def isCompletedToday (completions : List CompletionRow) (now : Timestamp) : Bool :=
  completions.any (fun c => sameLocalDay now c.completedAt)

/-- The result of running one event handler: the database afterwards, the
local view state of the component afterwards, the number of backend
requests issued, the number of times the read query backing the view list
was re-issued, and which toast kinds fired. -/
structure Outcome (V : Type) where
  db : DB
  view : V
  calls : Nat
  refetches : Nat
  errorToast : Bool
  successToast : Bool

/-- View state of HabitsManager: the habits list with embedded completions. -/
abbrev HabitView := List (HabitRow × List CompletionRow)

/-- fetchHabits of HabitsManager.  On error the list state is left as it
was and toast.error fires. -/
def fetchHabits (db : DB) (user : Option Nat) (view : HabitView)
    (ok : Bool) : Outcome HabitView :=
  match user with
  | none => ⟨db, view, 0, 0, false, false⟩
  | some u =>
    if ok then ⟨db, fetchHabitsQuery db u, 1, 1, false, false⟩
    else ⟨db, view, 1, 0, true, false⟩

/-- fetchMoodEntries of MoodJournal.  On error the component only calls
console.error: no toast fires and the list state is left as it was. -/
def fetchMoodEntries (db : DB) (user : Option Nat) (view : List MoodRow)
    (ok : Bool) : Outcome (List MoodRow) :=
  match user with
  | none => ⟨db, view, 0, 0, false, false⟩
  | some u =>
    if ok then ⟨db, fetchMoodEntriesQuery db u, 1, 1, false, false⟩
    else ⟨db, view, 1, 0, false, false⟩

/-- completeHabit of HabitsManager: insert one habit_completions row with
completed_at = now, then on success toast and re-run fetchHabits. -/
def completeHabit (db : DB) (user : Option Nat) (view : HabitView)
    (habitId : Nat) (ok : Bool) (now : Timestamp) : Outcome HabitView :=
  match user with
  | none => ⟨db, view, 0, 0, false, false⟩
  | some u =>
    if ok then
      let db' : DB :=
        { db with
          completions := ⟨db.nextId, habitId, u, now, none⟩ :: db.completions,
          nextId := db.nextId + 1 }
      ⟨db', fetchHabitsQuery db' u, 2, 1, false, true⟩
    else ⟨db, view, 1, 0, true, false⟩

/-- deleteHabit of HabitsManager: update habits set is_active = false where
id = habitId (no user filter), then on success toast and refetch. -/
def deleteHabit (db : DB) (user : Option Nat) (view : HabitView)
    (habitId : Nat) (ok : Bool) : Outcome HabitView :=
  match user with
  | none => ⟨db, view, 0, 0, false, false⟩
  | some u =>
    if ok then
      let db' : DB :=
        { db with
          habits := db.habits.map
            (fun h => if h.id == habitId then { h with isActive := false } else h) }
      ⟨db', fetchHabitsQuery db' u, 2, 1, false, true⟩
    else ⟨db, view, 1, 0, true, false⟩

/-- The form state of CreateHabitModal. -/
structure HabitForm where
  title : String
  description : String
  category : String
  frequency : Frequency
  targetCount : Nat
  difficulty : Difficulty
  icon : String
  color : String
deriving DecidableEq, Repr

/-- The habitData record built by handleSubmit of CreateHabitModal:
user_id is the signed-in user and description falls back to null when
empty. -/
def habitData (u : Nat) (f : HabitForm) (id : Nat) (now : Timestamp) : HabitRow :=
  { id := id
    userId := u
    title := f.title
    description := if f.description = "" then none else some f.description
    category := f.category
    frequency := f.frequency
    targetCount := f.targetCount
    difficulty := f.difficulty
    isActive := true
    icon := f.icon
    color := f.color
    createdAt := now }

/-- handleSubmit of CreateHabitModal: with editHabit set, update the habits
row with that id to habitData; otherwise insert habitData (is_active and
created_at fall to the table defaults).  On success onSuccess refetches the
habits list. -/
def handleSubmitHabit (db : DB) (user : Option Nat) (view : HabitView)
    (editHabit : Option Nat) (form : HabitForm) (ok : Bool)
    (now : Timestamp) : Outcome HabitView :=
  match user with
  | none => ⟨db, view, 0, 0, false, false⟩
  | some u =>
    if ok then
      let db' : DB :=
        match editHabit with
        | some editId =>
          { db with
            habits := db.habits.map
              (fun h =>
                if h.id == editId then
                  { habitData u form h.id h.createdAt with isActive := h.isActive }
                else h) }
        | none =>
          { db with
            habits := habitData u form db.nextId now :: db.habits,
            nextId := db.nextId + 1 }
      ⟨db', fetchHabitsQuery db' u, 2, 1, false, true⟩
    else ⟨db, view, 1, 0, true, false⟩

/-- joinChallenge of Challenges: insert one challenge_participants row;
the backend rejects the insert when a row with the same
(challenge_id, user_id) already exists (UNIQUE constraint).  On success
toast and re-run fetchMyParticipations. -/
def joinChallenge (db : DB) (user : Option Nat) (view : List Nat)
    (challengeId : Nat) (ok : Bool) (now : Timestamp) : Outcome (List Nat) :=
  match user with
  | none => ⟨db, view, 0, 0, false, false⟩
  | some u =>
    if ok && !(db.participants.any
        (fun p => p.challengeId == challengeId && p.userId == u)) then
      let db' : DB :=
        { db with
          participants := ⟨db.nextId, challengeId, u, now⟩ :: db.participants,
          nextId := db.nextId + 1 }
      ⟨db', fetchMyParticipationsQuery db' u, 2, 1, false, true⟩
    else ⟨db, view, 1, 0, true, false⟩

/-- leaveChallenge of Challenges: delete from challenge_participants where
challenge_id = challengeId and user_id = u, then toast and refetch. -/
def leaveChallenge (db : DB) (user : Option Nat) (view : List Nat)
    (challengeId : Nat) (ok : Bool) : Outcome (List Nat) :=
  match user with
  | none => ⟨db, view, 0, 0, false, false⟩
  | some u =>
    if ok then
      let db' : DB :=
        { db with
          participants := db.participants.filter
            (fun p => !(p.challengeId == challengeId && p.userId == u)) }
      ⟨db', fetchMyParticipationsQuery db' u, 2, 1, false, true⟩
    else ⟨db, view, 1, 0, true, false⟩

/-- Whitespace characters stripped by the JavaScript trim method (the
common ones). -/
def isJsWhitespace (c : Char) : Bool :=
  c == ' ' || c == '\t' || c == '\n' || c == '\r'

/-- The JavaScript trim method: strip leading and trailing whitespace. -/
def jsTrim (s : String) : String :=
  ⟨((s.data.dropWhile isJsWhitespace).reverse.dropWhile isJsWhitespace).reverse⟩

/-- The single() existence check of submitMoodEntry: its error is
discarded, so the data is the row exactly when precisely one row matched. -/
def singleRow (l : List MoodRow) : Option MoodRow :=
  match l with
  | [m] => some m
  | _ => none

/-- submitMoodEntry of MoodJournal.  Guard: with no user or no selected
mood it only fires toast.error.  Otherwise: select the mood entries of the
user with created_at in [today T00:00:00, today T23:59:59) through
single(); when that yields a row, update its mood_rating and reflection by
id; otherwise insert a new row (created_at falls to the now() default).
On success fetchMoodEntries re-runs. -/
def submitMoodEntry (db : DB) (user : Option Nat) (todayMood : Option Nat)
    (reflection : String) (view : List MoodRow) (selectOk writeOk : Bool)
    (now : Timestamp) : Outcome (List MoodRow) :=
  match user, todayMood with
  | none, _ => ⟨db, view, 0, 0, true, false⟩
  | some _, none => ⟨db, view, 0, 0, true, false⟩
  | some u, some rating =>
    let matched := db.moods.filter
      (fun m => m.userId == u && inTodayQueryWindow now m.createdAt)
    let existingEntry := if selectOk then singleRow matched else none
    let newReflection : Option String :=
      if jsTrim reflection = "" then none else some (jsTrim reflection)
    match existingEntry with
    | some entry =>
      if writeOk then
        let db' : DB :=
          { db with
            moods := db.moods.map
              (fun m =>
                if m.id == entry.id then
                  { m with moodRating := rating, reflection := newReflection }
                else m) }
        ⟨db', fetchMoodEntriesQuery db' u, 3, 1, false, true⟩
      else ⟨db, view, 2, 0, true, false⟩
    | none =>
      if writeOk then
        let db' : DB :=
          { db with
            moods := ⟨db.nextId, u, rating, newReflection, now⟩ :: db.moods,
            nextId := db.nextId + 1 }
        ⟨db', fetchMoodEntriesQuery db' u, 3, 1, false, true⟩
      else ⟨db, view, 2, 0, true, false⟩

/-- Math.round(num / den) of a nonnegative quotient, as exact rational
rounding: floor(num / den + 1 / 2). -/
def jsRound (num den : Nat) : Nat := (2 * num + den) / (2 * den)

/-- startOfWeek of date-fns (weeks start on Sunday) on the local-day
abstraction; epoch day 0 was a Thursday. -/
def startOfWeekDay (d : Nat) : Nat := d - (d + 4) % 7

/-- The stats record set by fetchDashboardData. -/
structure DashboardStats where
  totalHabits : Nat
  todayCompleted : Nat
  currentStreak : Nat
  weeklyCompletion : Nat
deriving DecidableEq, Repr

/-- fetchDashboardData of Dashboard: count the active habits of the user,
the completions inside [today T00:00:00, today T23:59:59), and the
completions of the current week; currentStreak is the literal 7 from the
source (commented there as mock).  The recent-habits card is presentation
only and not modelled. -/
def fetchDashboardData (db : DB) (u : Nat) (now : Timestamp) : DashboardStats :=
  let habits := db.habits.filter (fun h => h.userId == u && h.isActive)
  let todayCompletions := db.completions.filter
    (fun c => c.userId == u && inTodayQueryWindow now c.completedAt)
  let ws := startOfWeekDay (localDay now)
  let weekCompletions := db.completions.filter
    (fun c => c.userId == u &&
      (decide (dayStart ws ≤ c.completedAt) &&
        decide (c.completedAt < dayStart (ws + 6) + (secsPerDay - 1))))
  { totalHabits := habits.length
    todayCompleted := todayCompletions.length
    currentStreak := 7
    weeklyCompletion := jsRound (100 * weekCompletions.length) 7 }

/-- The scalar metrics set by fetchAnalyticsData (the chart series are
groupings of the same fetched rows, presentation only). -/
structure AnalyticsData where
  completionRate : Nat
  bestStreak : Nat
  totalCompletions : Nat
deriving DecidableEq, Repr

/-- The days count of the selected time range of Analytics. -/
def daysOfRange (timeRange : String) : Nat :=
  if timeRange = "7days" then 7 else if timeRange = "30days" then 30 else 90

/-- fetchAnalyticsData of Analytics: fetch the active habits of the user
and the completions since format(subDays(now, days), yyyy-MM-dd); the
completion rate is Math.round(completions / (habits x days) x 100) when
the denominator is positive and 0 otherwise; bestStreak is the literal 12
from the source (commented there as mock data). -/
def fetchAnalyticsData (db : DB) (u : Nat) (timeRange : String)
    (now : Timestamp) : AnalyticsData :=
  let days := daysOfRange timeRange
  let startDate := dayStart (localDay (now - days * secsPerDay))
  let habits := db.habits.filter (fun h => h.userId == u && h.isActive)
  let completions := db.completions.filter
    (fun c => c.userId == u && decide (startDate ≤ c.completedAt))
  let totalPossible := habits.length * days
  let completionRate :=
    if totalPossible > 0 then jsRound (100 * completions.length) totalPossible
    else 0
  { completionRate := completionRate
    bestStreak := 12
    totalCompletions := completions.length }

/-- One habit entry of a template of the Templates screen. -/
structure TemplateHabit where
  title : String
  description : String
  category : String
  frequency : Frequency
  difficulty : Difficulty
  icon : String
deriving DecidableEq, Repr

/-- A template of the Templates screen (its icon component and gradient
class are presentation only and not modelled). -/
structure Template where
  id : String
  name : String
  description : String
  habits : List TemplateHabit
deriving DecidableEq, Repr

/-- The getCategoryColor table shared by Templates and GoalBreakdown. -/
def getCategoryColor (category : String) : String :=
  if category = "Health" then "bg-red-500"
  else if category = "Study" then "bg-blue-500"
  else if category = "Coding" then "bg-green-500"
  else if category = "Fitness" then "bg-orange-500"
  else if category = "Mindfulness" then "bg-purple-500"
  else if category = "General" then "bg-gray-500"
  else "bg-gray-500"

/-- The Exam Preparation template of the fixed templates catalog. -/
def examPreparation : Template :=
  { id := "exam-prep"
    name := "Exam Preparation"
    description := "Structured study routine for upcoming exams"
    habits := [
      ⟨"Morning Study Session", "Focused study for 2 hours in the morning",
        "Study", .daily, .medium, "📚"⟩,
      ⟨"Practice Problems", "Solve practice questions for 1 hour",
        "Study", .daily, .medium, "✏️"⟩,
      ⟨"Review Notes", "Review and summarize daily learnings",
        "Study", .daily, .easy, "📝"⟩,
      ⟨"Mock Test", "Take a full-length practice exam",
        "Study", .weekly, .hard, "🎯"⟩] }

/-- The Coding Sprint template of the fixed templates catalog. -/
def codingSprint : Template :=
  { id := "coding-sprint"
    name := "Coding Sprint"
    description := "Intensive coding practice for skill development"
    habits := [
      ⟨"Daily Coding Challenge", "Solve 2-3 algorithmic problems",
        "Coding", .daily, .medium, "💻"⟩,
      ⟨"Project Development", "Work on personal project for 1 hour",
        "Coding", .daily, .medium, "🚀"⟩,
      ⟨"Code Review", "Review and refactor existing code",
        "Coding", .daily, .easy, "🔍"⟩,
      ⟨"Learn New Technology", "Study new frameworks or tools",
        "Study", .weekly, .hard, "🌟"⟩] }

/-- The Balanced Student Life template of the fixed templates catalog. -/
def balancedStudentLife : Template :=
  { id := "balanced-student"
    name := "Balanced Student Life"
    description := "Maintain health, studies, and personal growth"
    habits := [
      ⟨"Morning Exercise", "30 minutes of physical activity",
        "Fitness", .daily, .medium, "🏃"⟩,
      ⟨"Study Session", "Focused academic work for 2 hours",
        "Study", .daily, .medium, "📖"⟩,
      ⟨"Meditation", "10 minutes of mindfulness practice",
        "Mindfulness", .daily, .easy, "🧘"⟩,
      ⟨"Social Connection", "Spend quality time with friends or family",
        "General", .weekly, .easy, "👥"⟩] }

/-- The Productivity Boost template of the fixed templates catalog. -/
def productivityBoost : Template :=
  { id := "productivity-boost"
    name := "Productivity Boost"
    description := "Maximize daily productivity and focus"
    habits := [
      ⟨"Morning Routine", "Consistent wake-up and preparation routine",
        "General", .daily, .easy, "🌅"⟩,
      ⟨"Deep Work Block", "2-hour focused work session without distractions",
        "Study", .daily, .hard, "🎯"⟩,
      ⟨"Task Planning", "Plan tomorrow\x27s tasks and priorities",
        "General", .daily, .easy, "📋"⟩,
      ⟨"Weekly Review", "Reflect on progress and plan improvements",
        "General", .weekly, .medium, "📊"⟩] }

/-- The fixed templates catalog of the Templates screen. -/
def templates : List Template :=
  [examPreparation, codingSprint, balancedStudentLife, productivityBoost]

/-- One row of the habitsToCreate batch built by applyTemplate: user_id is
the signed-in user, target_count is 1, the color comes from
getCategoryColor, and is_active and created_at fall to the table
defaults. -/
def templateHabitRow (u : Nat) (h : TemplateHabit) (id : Nat)
    (now : Timestamp) : HabitRow :=
  { id := id
    userId := u
    title := h.title
    description := some h.description
    category := h.category
    frequency := h.frequency
    targetCount := 1
    difficulty := h.difficulty
    isActive := true
    icon := h.icon
    color := getCategoryColor h.category
    createdAt := now }

/-- The habitsToCreate batch of applyTemplate over the habit entries of a
template, with ids assigned in sequence. -/
def habitsToCreate (u : Nat) (hs : List TemplateHabit) (firstId : Nat)
    (now : Timestamp) : List HabitRow :=
  match hs with
  | [] => []
  | h :: rest => templateHabitRow u h firstId now :: habitsToCreate u rest (firstId + 1) now

/-- applyTemplate of the Templates screen: one bulk insert of the
habitsToCreate batch, then only a success toast.  The Templates screen
holds no list state and re-issues no read query after the insert. -/
def applyTemplate (db : DB) (user : Option Nat) (t : Template) (ok : Bool)
    (now : Timestamp) : Outcome Unit :=
  match user with
  | none => ⟨db, (), 0, 0, false, false⟩
  | some u =>
    if ok then
      ⟨{ db with
          habits := habitsToCreate u t.habits db.nextId now ++ db.habits,
          nextId := db.nextId + t.habits.length },
        (), 1, 0, false, true⟩
    else ⟨db, (), 1, 0, true, false⟩

/-- One suggested habit of the GoalBreakdown screen. -/
structure SuggestedHabit where
  title : String
  description : String
  category : String
  frequency : Frequency
  difficulty : Difficulty
  icon : String
  reasoning : String
deriving DecidableEq, Repr

/-- The mockSuggestions constant of analyzeGoal. -/
def mockSuggestions : List SuggestedHabit := [
  ⟨"Daily Algorithm Practice",
    "Solve 2 coding problems on LeetCode or HackerRank",
    "Coding", .daily, .medium, "💻",
    "Regular problem-solving builds algorithmic thinking essential for technical interviews"⟩,
  ⟨"System Design Study",
    "Read system design articles or watch videos for 30 minutes",
    "Study", .daily, .medium, "🏗️",
    "Understanding system design is crucial for senior developer roles"⟩,
  ⟨"Mock Interview Practice",
    "Practice coding interviews with peers or online platforms",
    "Study", .weekly, .hard, "🎤",
    "Regular interview practice builds confidence and improves performance"⟩,
  ⟨"Open Source Contribution",
    "Contribute to open source projects or maintain your GitHub",
    "Coding", .weekly, .medium, "🌟",
    "Open source contributions demonstrate real-world coding skills to employers"⟩,
  ⟨"Technical Blog Writing",
    "Write about your learning journey and technical insights",
    "General", .weekly, .easy, "✍️",
    "Technical writing showcases communication skills and deepens understanding"⟩]

/-- analyzeGoal of GoalBreakdown: with a blank goal only toast.error fires
(none); otherwise the suggestions state is set to the fixed
mockSuggestions list, whatever the goal text was. -/
def analyzeGoal (goal : String) : Option (List SuggestedHabit) :=
  if jsTrim goal = "" then none else some mockSuggestions

/-- Number of participation rows of one (challenge, user) pair. -/
def pairCount (db : DB) (c u : Nat) : Nat :=
  (db.participants.filter
      (fun p => p.challengeId == c && p.userId == u)).length

/-- Number of mood rows of one user on one local calendar day. -/
def dayMoodCount (db : DB) (u d : Nat) : Nat :=
  (db.moods.filter
      (fun m => m.userId == u && (localDay m.createdAt == d))).length

/-- A concrete habits row used by witnesses. -/
def habitW : HabitRow :=
  ⟨1, 0, "Read 20 pages", none, "General", .daily, 1, .easy, true, "🎯",
    "bg-purple-500", 0⟩

/-- A concrete habit_completions row used by witnesses. -/
def completionW : CompletionRow := ⟨2, 1, 0, 10, none⟩

/-- A concrete database with one active habit of user 0 and one of its
completions, used by witnesses. -/
def dbW : DB := ⟨[habitW], [completionW], [], [], 3⟩

/-- A mood entry stored at 23:59:59 of local day 0: the final second of
the day. -/
def moodLastSecond : MoodRow := ⟨0, 0, 3, none, 86399⟩

/-- A database whose only mood entry sits in the final second of day 0. -/
def dbMoodLastSecond : DB := ⟨[], [], [moodLastSecond], [], 1⟩

/-- A database where user 7 already participates in challenge 5. -/
def dbJoined : DB := ⟨[], [], [], [⟨0, 5, 7, 0⟩], 1⟩

/-- A mood entry of user 0 stored at second 10 of local day 0: inside the
today query window for any instant of that day before its final second. -/
def moodToday : MoodRow := ⟨0, 0, 2, none, 10⟩

/-- A database whose only mood entry is the early day-0 entry of user 0,
used to exercise the update path of submitMoodEntry. -/
def dbMood1 : DB := ⟨[], [], [moodToday], [], 1⟩

/-- C7: For any two non-empty goal texts, the analyze action produces the
same fixed list of suggested habits: its output is independent of the goal
input, always the identical 5-element suggestion list. -/
theorem analyzeGoal_input_independent (g1 g2 : String)
    (h1 : jsTrim g1 ≠ "") (h2 : jsTrim g2 ≠ "") :
    analyzeGoal g1 = analyzeGoal g2 ∧
      analyzeGoal g1 = some mockSuggestions ∧ mockSuggestions.length = 5 := by
  simp [analyzeGoal, h1, h2, mockSuggestions]

/-- Witness for C7 at the concrete goals abc and xyz. -/
theorem analyzeGoal_input_independent_witness :
    (jsTrim "abc" ≠ "" ∧ jsTrim "xyz" ≠ "") ∧
      (analyzeGoal "abc" = analyzeGoal "xyz" ∧
        analyzeGoal "abc" = some mockSuggestions ∧ mockSuggestions.length = 5) :=
  ⟨⟨by decide, by decide⟩,
    analyzeGoal_input_independent "abc" "xyz" (by decide) (by decide)⟩

/-- C8: The dashboard current-streak metric and the analytics best-streak
metric are the hard-coded constants 7 and 12 for every database state,
user and time range: they are not computed from the completion records. -/
theorem streak_metrics_hard_coded (db : DB) (u : Nat) (now : Timestamp)
    (timeRange : String) :
    (fetchDashboardData db u now).currentStreak = 7 ∧
      (fetchAnalyticsData db u timeRange now).bestStreak = 12 :=
  ⟨rfl, rfl⟩

/-- C9: With no signed-in user, every mutation handler returns immediately:
no backend request is issued, the database is untouched and the local view
state is unchanged.  submitMoodEntry additionally fires its please-select
error toast before returning, still with zero backend calls. -/
theorem null_user_mutations_noop (db : DB) (hv : HabitView) (pv : List Nat)
    (mv : List MoodRow) (hid cid : Nat) (eh : Option Nat) (f : HabitForm)
    (t : Template) (tm : Option Nat) (rtext : String) (ok ok2 : Bool)
    (now : Timestamp) :
    completeHabit db none hv hid ok now = ⟨db, hv, 0, 0, false, false⟩ ∧
    deleteHabit db none hv hid ok = ⟨db, hv, 0, 0, false, false⟩ ∧
    handleSubmitHabit db none hv eh f ok now = ⟨db, hv, 0, 0, false, false⟩ ∧
    joinChallenge db none pv cid ok now = ⟨db, pv, 0, 0, false, false⟩ ∧
    leaveChallenge db none pv cid ok = ⟨db, pv, 0, 0, false, false⟩ ∧
    submitMoodEntry db none tm rtext mv ok ok2 now = ⟨db, mv, 0, 0, true, false⟩ ∧
    applyTemplate db none t ok now = ⟨db, (), 0, 0, false, false⟩ :=
  ⟨rfl, rfl, rfl, rfl, rfl, rfl, rfl⟩

/-- C5: Applying the Exam Preparation template performs one bulk insert of
exactly 4 habit records, each tagged with the current user id, whose
titles are exactly the four of the fixed catalog. -/
theorem apply_exam_preparation_template (db : DB) (u : Nat) (now : Timestamp) :
    (applyTemplate db (some u) examPreparation true now).calls = 1 ∧
    (applyTemplate db (some u) examPreparation true now).db.habits =
      habitsToCreate u examPreparation.habits db.nextId now ++ db.habits ∧
    (habitsToCreate u examPreparation.habits db.nextId now).length = 4 ∧
    (habitsToCreate u examPreparation.habits db.nextId now).map (·.title) =
      ["Morning Study Session", "Practice Problems", "Review Notes",
        "Mock Test"] ∧
    ∀ r ∈ habitsToCreate u examPreparation.habits db.nextId now,
      r.userId = u := by
  refine ⟨rfl, rfl, rfl, rfl, ?_⟩
  intro r hr
  simp only [examPreparation, habitsToCreate, List.mem_cons,
    List.not_mem_nil, or_false] at hr
  rcases hr with rfl | rfl | rfl | rfl <;> rfl

/-- daysOfRange is one of 7, 30 or 90, all positive. -/
theorem daysOfRange_pos (timeRange : String) : 0 < daysOfRange timeRange := by
  unfold daysOfRange
  split
  · norm_num
  · split <;> norm_num

/-- C10: The analytics completion rate never divides by zero: with no
active habit it is exactly 0, and with at least one active habit the
denominator habits x days is positive and the rate is the rounded
percentage of completions over it. -/
theorem completion_rate_guarded (db : DB) (u : Nat) (timeRange : String)
    (now : Timestamp) :
    ((db.habits.filter (fun h => h.userId == u && h.isActive)).length = 0 →
      (fetchAnalyticsData db u timeRange now).completionRate = 0) ∧
    (0 < (db.habits.filter (fun h => h.userId == u && h.isActive)).length →
      0 < (db.habits.filter (fun h => h.userId == u && h.isActive)).length *
          daysOfRange timeRange ∧
      (fetchAnalyticsData db u timeRange now).completionRate =
        jsRound
          (100 * (db.completions.filter (fun c => c.userId == u &&
            decide (dayStart (localDay (now - daysOfRange timeRange * secsPerDay)) ≤
              c.completedAt))).length)
          ((db.habits.filter (fun h => h.userId == u && h.isActive)).length *
            daysOfRange timeRange)) := by
  constructor
  · intro h0
    unfold fetchAnalyticsData
    simp [h0]
  · intro hpos
    have hden := Nat.mul_pos hpos (daysOfRange_pos timeRange)
    refine ⟨hden, ?_⟩
    unfold fetchAnalyticsData
    simp [hden]

/-- Witness for C10 at a concrete database with one active habit. -/
theorem completion_rate_guarded_witness :
    0 < (dbW.habits.filter (fun h => h.userId == 0 && h.isActive)).length ∧
      (0 < (dbW.habits.filter (fun h => h.userId == 0 && h.isActive)).length *
          daysOfRange "7days" ∧
        (fetchAnalyticsData dbW 0 "7days" 20).completionRate =
          jsRound
            (100 * (dbW.completions.filter (fun c => c.userId == 0 &&
              decide (dayStart (localDay (20 - daysOfRange "7days" * secsPerDay)) ≤
                c.completedAt))).length)
            ((dbW.habits.filter (fun h => h.userId == 0 && h.isActive)).length *
              daysOfRange "7days")) :=
  ⟨by decide, (completion_rate_guarded dbW 0 "7days" 20).2 (by decide)⟩

/-- Equality of local days is exactly membership of the half-open
midnight-to-next-midnight interval. -/
theorem localDay_eq_iff (now t : Nat) :
    localDay t = localDay now ↔
      dayStart (localDay now) ≤ t ∧ t < dayStart (localDay now) + secsPerDay := by
  simp only [localDay, dayStart, secsPerDay]
  have h1 := Nat.mod_add_div t 86400
  have h2 := Nat.mod_add_div now 86400
  have h3 : t % 86400 < 86400 := Nat.mod_lt _ (by norm_num)
  have h4 : now % 86400 < 86400 := Nat.mod_lt _ (by norm_num)
  omega

/-- C4 counterexample: the stored timestamp 86399 (23:59:59 of local day
0) lies in the half-open interval from local midnight to the next local
midnight of now = 0, yet checkTodayMood does not classify the entry
holding it as today. -/
theorem today_window_last_second_counterexample :
    (dayStart (localDay 0) ≤ moodLastSecond.createdAt ∧
      moodLastSecond.createdAt < dayStart (localDay 0) + secsPerDay) ∧
    checkTodayMood dbMoodLastSecond 0 0 = none := by decide

/-- C4 amended: the habit completed-today check classifies a stored
timestamp as today exactly when it lies in [local midnight, next local
midnight), while the mood-entry-for-today check uses the window
[local midnight, local midnight + 86399 s), which excludes the final
second of the local day. -/
theorem today_classification (cs : List CompletionRow) (db : DB) (u : Nat)
    (t now : Timestamp) :
    (isCompletedToday cs now = true ↔
      ∃ c ∈ cs, dayStart (localDay now) ≤ c.completedAt ∧
        c.completedAt < dayStart (localDay now) + secsPerDay) ∧
    (inTodayQueryWindow now t = true ↔
      dayStart (localDay now) ≤ t ∧
        t < dayStart (localDay now) + (secsPerDay - 1)) ∧
    ((checkTodayMood db u now).isSome = true ↔
      ∃ m ∈ db.moods, m.userId = u ∧ dayStart (localDay now) ≤ m.createdAt ∧
        m.createdAt < dayStart (localDay now) + (secsPerDay - 1)) := by
  refine ⟨?_, ?_, ?_⟩
  · unfold isCompletedToday sameLocalDay
    simp only [List.any_eq_true, beq_iff_eq]
    constructor
    · rintro ⟨c, hc, h⟩
      exact ⟨c, hc, (localDay_eq_iff now c.completedAt).mp h⟩
    · rintro ⟨c, hc, h⟩
      exact ⟨c, hc, (localDay_eq_iff now c.completedAt).mpr h⟩
  · unfold inTodayQueryWindow
    simp
  · unfold checkTodayMood
    have hiff : ∀ (l : List MoodRow), l.head?.isSome = true ↔ l ≠ [] := by
      intro l
      cases l <;> simp
    rw [hiff, ne_eq, List.filter_eq_nil_iff]
    push_neg
    constructor
    · rintro ⟨m, hm, hp⟩
      refine ⟨m, hm, ?_⟩
      simpa [inTodayQueryWindow, Bool.and_eq_true, beq_iff_eq,
        decide_eq_true_eq] using hp
    · rintro ⟨m, hm, hu, h1, h2⟩
      exact ⟨m, hm, by simp [inTodayQueryWindow, hu, h1, h2]⟩

/-- C3 counterexample: a failing mood-entries fetch leaves the database
and the previously rendered list unchanged but surfaces no error
notification: the component only logs to the console. -/
theorem fetch_mood_failure_silent :
    (fetchMoodEntries emptyDB (some 0) [] false).errorToast = false ∧
      (fetchMoodEntries emptyDB (some 0) [] false).view = [] ∧
      (fetchMoodEntries emptyDB (some 0) [] false).db = emptyDB :=
  ⟨rfl, rfl, rfl⟩

/-- C3 amended: every failing call leaves the database and the previously
rendered list unchanged; the mutation handlers and the habits fetch
surface an error toast on failure, but the mood-entries fetch surfaces no
notification. -/
theorem failure_leaves_state (db : DB) (hv : HabitView) (pv : List Nat)
    (mv : List MoodRow) (u hid cid : Nat) (eh : Option Nat) (f : HabitForm)
    (t : Template) (tm : Nat) (rtext : String) (selectOk : Bool)
    (now : Timestamp) :
    completeHabit db (some u) hv hid false now = ⟨db, hv, 1, 0, true, false⟩ ∧
    deleteHabit db (some u) hv hid false = ⟨db, hv, 1, 0, true, false⟩ ∧
    handleSubmitHabit db (some u) hv eh f false now =
      ⟨db, hv, 1, 0, true, false⟩ ∧
    joinChallenge db (some u) pv cid false now = ⟨db, pv, 1, 0, true, false⟩ ∧
    leaveChallenge db (some u) pv cid false = ⟨db, pv, 1, 0, true, false⟩ ∧
    submitMoodEntry db (some u) (some tm) rtext mv selectOk false now =
      ⟨db, mv, 2, 0, true, false⟩ ∧
    applyTemplate db (some u) t false now = ⟨db, (), 1, 0, true, false⟩ ∧
    fetchHabits db (some u) hv false = ⟨db, hv, 1, 0, true, false⟩ ∧
    fetchMoodEntries db (some u) mv false = ⟨db, mv, 1, 0, false, false⟩ := by
  refine ⟨rfl, rfl, rfl, rfl, rfl, ?_, rfl, rfl, rfl⟩
  simp only [submitMoodEntry]
  split <;> rfl

/-- C6: a second join while a participation row of the same
(challenge, user) pair exists is rejected by the uniqueness check and
changes nothing; leaving keeps exactly the rows that are not the callers
rows for that challenge; both preserve the at-most-one-row-per-pair
invariant. -/
theorem join_leave_uniqueness (db : DB) (u c : Nat) (pv : List Nat)
    (now : Timestamp) :
    ((∃ p ∈ db.participants, p.challengeId = c ∧ p.userId = u) →
      joinChallenge db (some u) pv c true now = ⟨db, pv, 1, 0, true, false⟩) ∧
    (∀ p, p ∈ (leaveChallenge db (some u) pv c true).db.participants ↔
      p ∈ db.participants ∧ ¬(p.challengeId = c ∧ p.userId = u)) ∧
    (∀ c0 u0, pairCount db c0 u0 ≤ 1 →
      pairCount (joinChallenge db (some u) pv c true now).db c0 u0 ≤ 1 ∧
      pairCount (leaveChallenge db (some u) pv c true).db c0 u0 ≤ 1) := by
  have hleave : ∀ c0 u0, pairCount db c0 u0 ≤ 1 →
      pairCount (leaveChallenge db (some u) pv c true).db c0 u0 ≤ 1 := by
    intro c0 u0 hle
    calc pairCount (leaveChallenge db (some u) pv c true).db c0 u0
        ≤ pairCount db c0 u0 :=
          ((List.filter_sublist db.participants).filter _).length_le
      _ ≤ 1 := hle
  refine ⟨?_, ?_, ?_⟩
  · rintro ⟨p, hp, h1, h2⟩
    have hany : db.participants.any
        (fun p => p.challengeId == c && p.userId == u) = true :=
      List.any_eq_true.mpr ⟨p, hp, by simp [h1, h2]⟩
    simp [joinChallenge, hany]
  · intro p
    simp [leaveChallenge, List.mem_filter, not_and]
    tauto
  · intro c0 u0 hle
    refine ⟨?_, hleave c0 u0 hle⟩
    by_cases hany : db.participants.any
        (fun p => p.challengeId == c && p.userId == u) = true
    · simpa [joinChallenge, hany] using hle
    · have hanyf : (db.participants.any
          (fun p => p.challengeId == c && p.userId == u)) = false := by
        simpa using hany
      by_cases hpair : c = c0 ∧ u = u0
      · rcases hpair with ⟨rfl, rfl⟩
        have hnil : db.participants.filter
            (fun p => p.challengeId == c && p.userId == u) = [] := by
          rw [List.filter_eq_nil_iff]
          intro p hp hmem
          exact absurd hmem (List.any_eq_false.mp hanyf p hp)
        simp [joinChallenge, hanyf, pairCount, List.filter_cons, hnil]
      · have hf : ((c == c0) && (u == u0)) = false := by
          by_cases hc : c = c0
          · by_cases hu : u = u0
            · exact absurd ⟨hc, hu⟩ hpair
            · simp [hu]
          · simp [hc]
        simpa [joinChallenge, hanyf, pairCount, List.filter_cons, hf]
          using hle

/-- Witness for C6 at a database where user 7 already joined challenge 5. -/
theorem join_leave_uniqueness_witness :
    (∃ p ∈ dbJoined.participants, p.challengeId = 5 ∧ p.userId = 7) ∧
      joinChallenge dbJoined (some 7) [] 5 true 0 =
        ⟨dbJoined, [], 1, 0, true, false⟩ ∧
      (pairCount dbJoined 5 7 ≤ 1 ∧
        pairCount (leaveChallenge dbJoined (some 7) [] 5 true).db 5 7 ≤ 1) :=
  ⟨by decide, (join_leave_uniqueness dbJoined 7 5 [] 0).1 (by decide),
    by decide, ((join_leave_uniqueness dbJoined 7 5 [] 0).2.2 5 7 (by decide)).2⟩

/-- A timestamp inside the mood query window lies on the current local
day. -/
theorem window_subset_day (now t : Nat)
    (h : inTodayQueryWindow now t = true) : localDay t = localDay now := by
  unfold inTodayQueryWindow at h
  simp only [Bool.and_eq_true, decide_eq_true_eq] at h
  exact (localDay_eq_iff now t).mpr
    ⟨h.1, Nat.lt_of_lt_of_le h.2 (Nat.add_le_add_left (Nat.sub_le _ _) _)⟩

/-- Updating the rating and reflection of one mood row by id changes
neither the owner nor the timestamp of any row, so per-day counts are
preserved. -/
theorem dayFilter_update_invariant (l : List MoodRow) (tid rating : Nat)
    (r : Option String) (u d : Nat) :
    ((l.map (fun m => if m.id == tid then
        { m with moodRating := rating, reflection := r } else m)).filter
      (fun m => m.userId == u && (localDay m.createdAt == d))).length =
    (l.filter (fun m => m.userId == u && (localDay m.createdAt == d))).length := by
  rw [List.filter_map, List.length_map]
  congr 1
  apply List.filter_congr
  intro m hm
  by_cases hid : (m.id == tid) = true
  · simp [Function.comp, hid]
  · simp [Function.comp, hid]

/-- C2 counterexample: two submissions during the final second of the
same local day (23:59:59 of day 0) both take the insert path, leaving two
mood rows of user 0 on local day 0. -/
theorem mood_one_per_day_counterexample :
    dayMoodCount
      (submitMoodEntry
        (submitMoodEntry emptyDB (some 0) (some 3) "" [] true true 86399).db
        (some 0) (some 4) "" [] true true 86399).db 0 0 = 2 := by
  decide

/-- C2 amended: provided every stored mood row of the user on the current
local day has its timestamp inside the query window [local midnight,
local midnight + 86399 s) (not in the final second of the day), a
successful submission inserts when the user has no row for the day and
updates the existing row when there is exactly one: the count of the
users rows for that day goes from 0 to 1 and stays at 1. -/
theorem mood_submit_one_per_day (db : DB) (u rating : Nat) (rtext : String)
    (mv : List MoodRow) (now : Timestamp)
    (hwin : ∀ m ∈ db.moods, m.userId = u →
      localDay m.createdAt = localDay now →
      inTodayQueryWindow now m.createdAt = true) :
    (dayMoodCount db u (localDay now) = 0 →
      dayMoodCount
        (submitMoodEntry db (some u) (some rating) rtext mv true true now).db
        u (localDay now) = 1) ∧
    (dayMoodCount db u (localDay now) = 1 →
      dayMoodCount
        (submitMoodEntry db (some u) (some rating) rtext mv true true now).db
        u (localDay now) = 1) := by
  have hsub : ∀ m ∈ db.moods,
      (m.userId == u && inTodayQueryWindow now m.createdAt) =
        (m.userId == u && (localDay m.createdAt == localDay now)) := by
    intro m hm
    by_cases hu : m.userId = u
    · simp only [hu, beq_self_eq_true, Bool.true_and]
      by_cases hd : localDay m.createdAt = localDay now
      · simp [hwin m hm hu hd, hd]
      · have hw : inTodayQueryWindow now m.createdAt = false := by
          by_contra hc
          have ht : inTodayQueryWindow now m.createdAt = true := by
            revert hc
            cases inTodayQueryWindow now m.createdAt <;> simp
          exact hd (window_subset_day now m.createdAt ht)
        rw [hw]
        exact (beq_eq_false_iff_ne.mpr hd).symm
    · rw [beq_eq_false_iff_ne.mpr hu]
      rfl
  have hPQ : db.moods.filter
        (fun m => m.userId == u && inTodayQueryWindow now m.createdAt) =
      db.moods.filter
        (fun m => m.userId == u && (localDay m.createdAt == localDay now)) :=
    List.filter_congr hsub
  constructor
  · intro h0
    have hnil : db.moods.filter
        (fun m => m.userId == u && (localDay m.createdAt == localDay now)) = [] :=
      List.length_eq_zero.mp h0
    simp only [submitMoodEntry, hPQ, hnil, singleRow, if_true]
    simp [dayMoodCount, List.filter_cons, hnil]
  · intro h1
    obtain ⟨m0, hm0⟩ := List.length_eq_one.mp h1
    simp only [submitMoodEntry, hPQ, hm0, singleRow, if_true]
    simp only [dayMoodCount]
    rw [dayFilter_update_invariant, hm0]
    rfl

/-- Witness for C2 amended at the empty database: the first submission of
local day 0 inserts one row. -/
theorem mood_submit_one_per_day_witness :
    (∀ m ∈ emptyDB.moods, m.userId = 0 →
      localDay m.createdAt = localDay 100 →
      inTodayQueryWindow 100 m.createdAt = true) ∧
      dayMoodCount emptyDB 0 (localDay 100) = 0 ∧
      dayMoodCount
        (submitMoodEntry emptyDB (some 0) (some 3) "" [] true true 100).db
        0 (localDay 100) = 1 :=
  ⟨by decide, by decide,
    (mood_submit_one_per_day emptyDB 0 3 "" [] 100 (by decide)).1 (by decide)⟩

/-- An active habit of the user appears in the habits read query, paired
with its completion rows. -/
theorem mem_fetchHabitsQuery (db : DB) (u : Nat) (h : HabitRow)
    (hh : h ∈ db.habits) (hu : h.userId = u) (ha : h.isActive = true) :
    (h, db.completions.filter (fun c => c.habitId == h.id)) ∈
      fetchHabitsQuery db u := by
  unfold fetchHabitsQuery
  refine List.mem_map.mpr ⟨h, ?_, rfl⟩
  rw [List.mem_insertionSort]
  exact List.mem_filter.mpr ⟨hh, by simp [hu, ha]⟩

/-- Every entry of the habits read query is an active habit of the user,
paired with exactly its completion rows. -/
theorem of_mem_fetchHabitsQuery (db : DB) (u : Nat)
    (pr : HabitRow × List CompletionRow) (hpr : pr ∈ fetchHabitsQuery db u) :
    pr.1 ∈ db.habits ∧ pr.1.userId = u ∧ pr.1.isActive = true ∧
      pr.2 = db.completions.filter (fun c => c.habitId == pr.1.id) := by
  unfold fetchHabitsQuery at hpr
  obtain ⟨h, hmem, rfl⟩ := List.mem_map.mp hpr
  rw [List.mem_insertionSort] at hmem
  obtain ⟨hh, hp⟩ := List.mem_filter.mp hmem
  simp only [Bool.and_eq_true, beq_iff_eq] at hp
  exact ⟨hh, hp.1, hp.2, rfl⟩

/-- The single() existence check yields a row exactly when the matched
list is that single row. -/
theorem singleRow_eq_some (l : List MoodRow) (e : MoodRow)
    (h : singleRow l = some e) : l = [e] := by
  cases l with
  | nil => simp [singleRow] at h
  | cons a t =>
    cases t with
    | nil =>
      simp [singleRow] at h
      rw [h]
    | cons b t2 => simp [singleRow] at h

/-- When the user holds at most 30 mood rows (the query limit), every one
of their rows is returned by the mood read query. -/
theorem mem_fetchMoodEntriesQuery_of_few (db : DB) (u : Nat) (e : MoodRow)
    (he : e ∈ db.moods) (heu : e.userId = u)
    (hlen : (db.moods.filter (fun m => m.userId == u)).length ≤ 30) :
    e ∈ fetchMoodEntriesQuery db u := by
  unfold fetchMoodEntriesQuery
  have hlen2 : (List.insertionSort moodLaterEq
      (db.moods.filter (fun m => m.userId == u))).length ≤ 30 := by
    rw [List.length_insertionSort]
    exact hlen
  rw [List.take_of_length_le hlen2, List.mem_insertionSort]
  exact List.mem_filter.mpr ⟨he, by simp [heu]⟩

/-- Updating the rating and reflection of one mood row by id changes no
ownership, so per-user counts are preserved. -/
theorem userFilter_update_invariant (l : List MoodRow) (tid rating : Nat)
    (r : Option String) (u : Nat) :
    ((l.map (fun m => if m.id == tid then
        { m with moodRating := rating, reflection := r } else m)).filter
      (fun m => m.userId == u)).length =
    (l.filter (fun m => m.userId == u)).length := by
  rw [List.filter_map, List.length_map]
  congr 1
  apply List.filter_congr
  intro m hm
  by_cases hid : (m.id == tid) = true
  · simp [Function.comp, hid]
  · simp [Function.comp, hid]

/-- C1 counterexample: a successful applyTemplate call re-issues no read
query at all: its refetch count is 0, not 1, and the Templates screen
holds no list that could reflect the insert. -/
theorem apply_template_no_refetch :
    ¬(applyTemplate emptyDB (some 0) examPreparation true 0).refetches = 1 := by
  decide

/-- C1 amended: every supported mutation except applying a template is
followed by exactly one refetch of the affected list, and the refetched
list reflects the mutation; for submit mood both the first-submission
insert and the same-day update refetch once, persist the submitted
rating, and (whenever the user holds fewer rows than the 30-row query
limit) show it in the refetched list; applyTemplate persists its bulk
insert but issues zero refetches. -/
theorem mutation_refetch_policy :
    (∀ db u (hv : HabitView) hid now,
      (completeHabit db (some u) hv hid true now).refetches = 1 ∧
      (∀ h ∈ db.habits, h.id = hid → h.userId = u → h.isActive = true →
        ∃ pr ∈ (completeHabit db (some u) hv hid true now).view,
          pr.1.id = hid ∧
            (⟨db.nextId, hid, u, now, none⟩ : CompletionRow) ∈ pr.2)) ∧
    (∀ db u (hv : HabitView) hid,
      (deleteHabit db (some u) hv hid true).refetches = 1 ∧
      ∀ pr ∈ (deleteHabit db (some u) hv hid true).view, pr.1.id ≠ hid) ∧
    (∀ db u (hv : HabitView) f now,
      (handleSubmitHabit db (some u) hv none f true now).refetches = 1 ∧
      ∃ pr ∈ (handleSubmitHabit db (some u) hv none f true now).view,
        pr.1.title = f.title) ∧
    (∀ db u (hv : HabitView) eid f now,
      (handleSubmitHabit db (some u) hv (some eid) f true now).refetches = 1 ∧
      (∀ h ∈ db.habits, h.id = eid → h.isActive = true →
        ∃ pr ∈ (handleSubmitHabit db (some u) hv (some eid) f true now).view,
          pr.1.id = eid ∧ pr.1.title = f.title)) ∧
    (∀ db u (pv : List Nat) cid now,
      (∀ p ∈ db.participants, ¬(p.challengeId = cid ∧ p.userId = u)) →
      (joinChallenge db (some u) pv cid true now).refetches = 1 ∧
        cid ∈ (joinChallenge db (some u) pv cid true now).view) ∧
    (∀ db u (pv : List Nat) cid,
      (leaveChallenge db (some u) pv cid true).refetches = 1 ∧
      cid ∉ (leaveChallenge db (some u) pv cid true).view) ∧
    (∀ db u rating (rtext : String) (mv : List MoodRow) now,
      (submitMoodEntry db (some u) (some rating) rtext mv true true now).refetches
          = 1 ∧
      (∃ m ∈ (submitMoodEntry db (some u) (some rating) rtext mv true true
          now).db.moods, m.userId = u ∧ m.moodRating = rating) ∧
      ((db.moods.filter (fun m => m.userId == u)).length < 30 →
        ∃ m ∈ (submitMoodEntry db (some u) (some rating) rtext mv true true
            now).view, m.userId = u ∧ m.moodRating = rating)) ∧
    (∀ db u (t : Template) now,
      (applyTemplate db (some u) t true now).refetches = 0 ∧
      (applyTemplate db (some u) t true now).db.habits =
        habitsToCreate u t.habits db.nextId now ++ db.habits) := by
  refine ⟨?_, ?_, ?_, ?_, ?_, ?_, ?_, ?_⟩
  · intro db u hv hid now
    refine ⟨rfl, ?_⟩
    intro h hh hid' hu ha
    subst hid'
    show ∃ pr ∈ (fetchHabitsQuery
        { db with
          completions := ⟨db.nextId, h.id, u, now, none⟩ :: db.completions,
          nextId := db.nextId + 1 } u),
      pr.1.id = h.id ∧
        (⟨db.nextId, h.id, u, now, none⟩ : CompletionRow) ∈ pr.2
    refine ⟨(h, _), mem_fetchHabitsQuery _ u h hh hu ha, rfl, ?_⟩
    exact List.mem_filter.mpr ⟨List.mem_cons_self _ _, by simp⟩
  · intro db u hv hid
    refine ⟨rfl, ?_⟩
    intro pr hpr heq
    obtain ⟨hmem, hu, ha, hc⟩ := of_mem_fetchHabitsQuery
      { db with habits := (db.habits.map
          (fun h => if h.id == hid then { h with isActive := false } else h)) }
      u pr hpr
    obtain ⟨h0, hh0, hfh0⟩ := List.mem_map.mp hmem
    by_cases hid0 : (h0.id == hid) = true
    · rw [← hfh0] at ha
      simp [hid0] at ha
    · have hid0f : (h0.id == hid) = false := by
        simpa using hid0
      rw [← hfh0] at heq
      simp [hid0f] at heq
      simp [heq] at hid0f
  · intro db u hv f now
    refine ⟨rfl, ?_⟩
    show ∃ pr ∈ (fetchHabitsQuery
        { db with
          habits := (habitData u f db.nextId now :: db.habits),
          nextId := db.nextId + 1 } u),
      pr.1.title = f.title
    exact ⟨(habitData u f db.nextId now, _),
      mem_fetchHabitsQuery _ u _ (List.mem_cons_self _ _) rfl rfl, rfl⟩
  · intro db u hv eid f now
    refine ⟨rfl, ?_⟩
    intro h hh hid' ha
    subst hid'
    show ∃ pr ∈ (fetchHabitsQuery
        { db with habits := (db.habits.map
            (fun h0 => if h0.id == h.id then
              { habitData u f h0.id h0.createdAt with isActive := h0.isActive }
              else h0)) } u),
      pr.1.id = h.id ∧ pr.1.title = f.title
    have hx : (fun h0 => if h0.id == h.id then
          { habitData u f h0.id h0.createdAt with isActive := h0.isActive }
          else h0) h =
        { habitData u f h.id h.createdAt with isActive := h.isActive } := by
      simp
    refine ⟨({ habitData u f h.id h.createdAt with isActive := h.isActive }, _),
      mem_fetchHabitsQuery _ u _ ?_ rfl ha, rfl, rfl⟩
    rw [← hx]
    exact List.mem_map_of_mem _ hh
  · intro db u pv cid now hno
    have hanyf : (db.participants.any
        (fun p => p.challengeId == cid && p.userId == u)) = false := by
      rw [List.any_eq_false]
      intro p hp hc
      simp only [Bool.and_eq_true, beq_iff_eq] at hc
      exact hno p hp hc
    constructor
    · simp [joinChallenge, hanyf]
    · simp only [joinChallenge, hanyf, Bool.not_false, Bool.and_true]
      simp [fetchMyParticipationsQuery, List.filter_cons]
  · intro db u pv cid
    refine ⟨rfl, ?_⟩
    intro hc
    obtain ⟨p, hp, hpc⟩ := List.mem_map.mp hc
    obtain ⟨hp1, hp2⟩ := List.mem_filter.mp hp
    obtain ⟨hp3, hp4⟩ := List.mem_filter.mp hp1
    rw [hpc] at hp4
    simp [hp2] at hp4
  · intro db u rating rtext mv now
    refine ⟨?_, ?_, ?_⟩
    · simp only [submitMoodEntry, if_true]
      split <;> rfl
    · simp only [submitMoodEntry, if_true]
      cases hsing : singleRow (db.moods.filter
          (fun m => m.userId == u && inTodayQueryWindow now m.createdAt)) with
      | none =>
        exact ⟨⟨db.nextId, u, rating,
          (if jsTrim rtext = "" then none else some (jsTrim rtext)), now⟩,
          List.mem_cons_self _ _, rfl, rfl⟩
      | some entry =>
        have hl := singleRow_eq_some _ _ hsing
        have hentry : entry ∈ db.moods.filter
            (fun m => m.userId == u && inTodayQueryWindow now m.createdAt) := by
          rw [hl]
          exact List.mem_cons_self _ _
        obtain ⟨hemem, hep⟩ := List.mem_filter.mp hentry
        have heu : entry.userId = u := by
          simp only [Bool.and_eq_true, beq_iff_eq] at hep
          exact hep.1
        refine ⟨{ entry with
            moodRating := rating,
            reflection := (if jsTrim rtext = "" then none
              else some (jsTrim rtext)) }, ?_, heu, rfl⟩
        have hfe : (fun m => if m.id == entry.id then
              { m with
                moodRating := rating,
                reflection := (if jsTrim rtext = "" then none
                  else some (jsTrim rtext)) } else m) entry =
            { entry with
              moodRating := rating,
              reflection := (if jsTrim rtext = "" then none
                else some (jsTrim rtext)) } := by
          simp
        exact hfe ▸ List.mem_map_of_mem _ hemem
    · intro hlen
      simp only [submitMoodEntry, if_true]
      cases hsing : singleRow (db.moods.filter
          (fun m => m.userId == u && inTodayQueryWindow now m.createdAt)) with
      | none =>
        refine ⟨⟨db.nextId, u, rating,
          (if jsTrim rtext = "" then none else some (jsTrim rtext)), now⟩,
          ?_, rfl, rfl⟩
        refine mem_fetchMoodEntriesQuery_of_few _ u _
          (List.mem_cons_self _ _) rfl ?_
        simp [List.filter_cons]
        omega
      | some entry =>
        have hl := singleRow_eq_some _ _ hsing
        have hentry : entry ∈ db.moods.filter
            (fun m => m.userId == u && inTodayQueryWindow now m.createdAt) := by
          rw [hl]
          exact List.mem_cons_self _ _
        obtain ⟨hemem, hep⟩ := List.mem_filter.mp hentry
        have heu : entry.userId = u := by
          simp only [Bool.and_eq_true, beq_iff_eq] at hep
          exact hep.1
        refine ⟨{ entry with
            moodRating := rating,
            reflection := (if jsTrim rtext = "" then none
              else some (jsTrim rtext)) }, ?_, heu, rfl⟩
        refine mem_fetchMoodEntriesQuery_of_few _ u _ ?_ heu ?_
        · have hfe : (fun m => if m.id == entry.id then
                { m with
                  moodRating := rating,
                  reflection := (if jsTrim rtext = "" then none
                    else some (jsTrim rtext)) } else m) entry =
              { entry with
                moodRating := rating,
                reflection := (if jsTrim rtext = "" then none
                  else some (jsTrim rtext)) } := by
            simp
          exact hfe ▸ List.mem_map_of_mem _ hemem
        · dsimp only
          rw [userFilter_update_invariant]
          omega
  · intro db u t now
    exact ⟨rfl, rfl⟩

/-- Witness for C1 amended: the complete-habit, join and mood conjuncts
applied at concrete databases. -/
theorem mutation_refetch_policy_witness :
    ((habitW ∈ dbW.habits ∧ habitW.id = 1 ∧ habitW.userId = 0 ∧
        habitW.isActive = true) ∧
      ∃ pr ∈ (completeHabit dbW (some 0) [] 1 true 20).view,
        pr.1.id = 1 ∧ (⟨dbW.nextId, 1, 0, 20, none⟩ : CompletionRow) ∈ pr.2) ∧
    ((∀ p ∈ emptyDB.participants, ¬(p.challengeId = 3 ∧ p.userId = 0)) ∧
      ((joinChallenge emptyDB (some 0) [] 3 true 0).refetches = 1 ∧
        3 ∈ (joinChallenge emptyDB (some 0) [] 3 true 0).view)) ∧
    (((emptyDB.moods.filter (fun m => m.userId == 0)).length < 30) ∧
      ∃ m ∈ (submitMoodEntry emptyDB (some 0) (some 4) "" [] true true
          50).view,
        m.userId = 0 ∧ m.moodRating = 4) ∧
    (((dbMood1.moods.filter (fun m => m.userId == 0)).length < 30) ∧
      (submitMoodEntry dbMood1 (some 0) (some 5) "" [] true true 50).refetches
          = 1 ∧
      ∃ m ∈ (submitMoodEntry dbMood1 (some 0) (some 5) "" [] true true
          50).view,
        m.userId = 0 ∧ m.moodRating = 5) :=
  ⟨⟨⟨by decide, by decide, by decide, by decide⟩,
      (mutation_refetch_policy.1 dbW 0 [] 1 20).2 habitW (by decide)
        (by decide) (by decide) (by decide)⟩,
    ⟨by decide,
      mutation_refetch_policy.2.2.2.2.1 emptyDB 0 [] 3 0 (by decide)⟩,
    ⟨by decide,
      (mutation_refetch_policy.2.2.2.2.2.2.1 emptyDB 0 4 "" [] 50).2.2
        (by decide)⟩,
    by decide,
    (mutation_refetch_policy.2.2.2.2.2.2.1 dbMood1 0 5 "" [] 50).1,
    (mutation_refetch_policy.2.2.2.2.2.2.1 dbMood1 0 5 "" [] 50).2.2
      (by decide)⟩

end HabitFlow
